import Mathlib

/-!
Verification of the pyqir `qirlib` LLVM wrapper layer against its design
specification.

The development shallowly embeds the C/C++ wrapper functions in
`src/qirlib/llvm-wrapper/` and `src/qirlib/extensions.cpp`:

* `MetadataWrapper.cpp`: `LLVMValueAsMetadata`, `LLVMRustIsAMDConstant`,
  `LLVMRustExtractMDConstant`, dispatching on the dynamic kind of an LLVM
  value handle.
* `LldWrapper.cpp`: `safe_lldMain` and `safeLldMainWrapper`, the
  crash-recoverable linker driver invocation.  The external toolkit pieces
  (`lld::wasm::link`, `CommonLinkerContext::destroy`,
  `llvm::CrashRecoveryContext`) are modelled by an environment record that
  fixes the outcome of each externally-determined step; the wrapper control
  flow itself is translated faithfully.
* `extensions.cpp` / `ModuleWrapper.cpp`: the two copies of the
  module-flag-behavior mapping functions.
* `ContextWrapper.cpp`: `LLVMRustContextCreate`.
-/

namespace PyQirWrapper

/-! ## Value / metadata handle model (MetadataWrapper.cpp)

In the LLVM class hierarchy `Constant` and `MetadataAsValue` are disjoint
subclasses of `Value` (`Constant` derives via `User`, `MetadataAsValue`
directly from `Value`), so a value handle has exactly one of the three
dynamic kinds the wrapper code discriminates: constant, metadata-as-value
(carrying the metadata node it wraps), or any other value kind.  Likewise
`ConstantAsMetadata` and `ValueAsMetadata` wrap a value, and other metadata
kinds (strings, tuples, ...) wrap none.  Handle identity beyond the wrapper
structure is modelled by a `Nat` tag. -/

mutual

/-- Model of an LLVM `Value` handle, by the dynamic kind the wrapper code
tests with `dyn_cast`. -/
inductive Value : Type where
  | constant (id : Nat) : Value
  | metadataAsValue (md : Metadata) : Value
  | other (id : Nat) : Value

/-- Model of an LLVM `Metadata` node, by the dynamic kind the wrapper code
tests with `isa` and `dyn_cast`. -/
inductive Metadata : Type where
  | constantAsMetadata (c : Value) : Metadata
  | valueAsMetadata (v : Value) : Metadata
  | mdOther (id : Nat) : Metadata

end

/-- Success of `dyn_cast<Constant>(V)` (and of `isa<Constant>`). -/
def isaConstant : Value → Bool
  | .constant _ => true
  | _ => false

/-- Success of `dyn_cast<MetadataAsValue>(V)` (and of `isa<MetadataAsValue>`). -/
def isaMetadataAsValue : Value → Bool
  | .metadataAsValue _ => true
  | _ => false

/-- Model of `dyn_cast<MetadataAsValue>(V)` followed by `->getMetadata()`:
the metadata node a metadata-as-value handle wraps, absent for every other
kind of handle. -/
def getMetadata : Value → Option Metadata
  | .metadataAsValue md => some md
  | _ => none

/-- Model of `ConstantAsMetadata::get(C)`: a constant-as-metadata node
carrying the given constant. -/
def constantAsMetadataGet (c : Value) : Metadata :=
  Metadata.constantAsMetadata c

/-- Model of `ValueAsMetadata::get(V)`: a generic value-as-metadata node
carrying the given value. -/
def valueAsMetadataGet (v : Value) : Metadata :=
  Metadata.valueAsMetadata v

/-- Model of `MetadataAsValue::get(Ctx, MD)`: a value handle wrapping the
given metadata node. -/
def metadataAsValueGet (md : Metadata) : Value :=
  Value.metadataAsValue md

/-- Success of `isa<ConstantAsMetadata>(MD)`. -/
def isaConstantAsMetadata : Metadata → Bool
  | .constantAsMetadata _ => true
  | _ => false

/-- Model of `dyn_cast<ConstantAsMetadata>(MD)` followed by `->getValue()`:
the constant a constant-as-metadata node carries, absent otherwise. -/
def constantAsMetadataGetValue : Metadata → Option Value
  | .constantAsMetadata c => some c
  | _ => none

/-- Embedding of `LLVMValueAsMetadata` (MetadataWrapper.cpp, lines 18-26):
`dyn_cast<Constant>` first, then `dyn_cast<MetadataAsValue>`, then the
generic `ValueAsMetadata::get` fallback.  Total on valid handles. -/
def LLVMValueAsMetadata (Val : Value) : Metadata :=
  if isaConstant Val then constantAsMetadataGet Val
  else
    match getMetadata Val with
    | some md => md
    | none => valueAsMetadataGet Val

/-- Embedding of `LLVMRustIsAMDConstant` (MetadataWrapper.cpp, lines 28-34).
The argument is an `Option` because the source uses `dyn_cast_or_null`,
admitting a null handle. -/
def LLVMRustIsAMDConstant (Val : Option Value) : Option Value :=
  match Val.bind getMetadata with
  | some md => if isaConstantAsMetadata md then Val else none
  | none => none

/-- Embedding of `LLVMRustExtractMDConstant` (MetadataWrapper.cpp, lines
36-43): `dyn_cast_or_null<MetadataAsValue>`, then `isa<ConstantAsMetadata>`
on the wrapped metadata, then `dyn_cast_or_null<ConstantAsMetadata>` and
`->getValue()`. -/
def LLVMRustExtractMDConstant (Val : Option Value) : Option Value :=
  match Val.bind getMetadata with
  | some md =>
    if isaConstantAsMetadata md then
      match constantAsMetadataGetValue md with
      | some c => some c
      | none => none
    else none
  | none => none

/-! ## Crash-recoverable driver invocation (LldWrapper.cpp)

The externally-determined steps of one invocation of `safe_lldMain` are an
environment: whether the first `CrashRecoveryContext::RunSafely` (running
`lldMain`) completed and its diagnostic `RetCode` if not, the return value
`r` of `lldMain` when it did complete, the bytes the driver wrote to the
two `raw_string_ostream` sinks during the call, and whether the cleanup
`RunSafely` (running `CommonLinkerContext::destroy()`) completes when
entered.  The wrapper control flow is then a pure function of this
environment. -/

/-- Modelled from the spec: the Driver Invocation Result record (`SafeReturn`
in the source).  Its struct declaration is not under `src/`; the two fields
are those the source initializes with `{retCode, canRunAgain}` braced
initializers, matching the spec record (the captured streams are returned
separately through the out-parameters of `safeLldMainWrapper`). -/
structure SafeReturn : Type where
  retCode : Int
  canRunAgain : Bool
  deriving DecidableEq, Repr

/-- Outcome of one `llvm::CrashRecoveryContext::RunSafely` call on an
external computation: `completed` is the boolean `RunSafely` returns, and
`retCode` is the context's diagnostic `RetCode` (meaningful when the
protected region failed to complete). -/
structure CrcRun : Type where
  completed : Bool
  retCode : Int
  deriving DecidableEq, Repr

/-- Environment fixing the externally-determined steps of one
`safe_lldMain` invocation. -/
structure LldEnv : Type where
  /-- first recovery scope: running `lldMain` -/
  driverRun : CrcRun
  /-- value assigned to `r` by `lldMain` when the first scope completes -/
  driverRet : Int
  /-- bytes accumulated in the stdout sink during the call -/
  driverStdout : List Nat
  /-- bytes accumulated in the stderr sink during the call -/
  driverStderr : List Nat
  /-- cleanup recovery scope: running `CommonLinkerContext::destroy()` -/
  destroyRun : CrcRun
  deriving DecidableEq, Repr

/-- Embedding of `safe_lldMain` (LldWrapper.cpp, lines 38-61), instrumented
with a boolean recording whether control reached the cleanup
`CrashRecoveryContext` (the scope around `CommonLinkerContext::destroy()`).
The source returns `{crc.RetCode, false}` as soon as the first scope fails;
only when it completes does execution continue to the cleanup scope, which
yields `{r, false}` on failure and `{r, true}` on success. -/
def safe_lldMain_instr (env : LldEnv) : SafeReturn × Bool :=
  if env.driverRun.completed = false then
    (⟨env.driverRun.retCode, false⟩, false)
  else if env.destroyRun.completed = false then
    (⟨env.driverRet, false⟩, true)
  else
    (⟨env.driverRet, true⟩, true)

/-- Result of `safe_lldMain`. -/
def safe_lldMain (env : LldEnv) : SafeReturn :=
  (safe_lldMain_instr env).1

/-- Whether an invocation of `safe_lldMain` enters the cleanup crash-recovery
scope (the one wrapping `CommonLinkerContext::destroy()`). -/
def teardownScopeAttempted (env : LldEnv) : Bool :=
  (safe_lldMain_instr env).2

/-- Model of `strdup(s.c_str())` on the byte content `s` of a `std::string`:
the copy holds the bytes up to the first NUL, followed by the terminating
NUL. -/
def strdup (s : List Nat) : List Nat :=
  s.takeWhile (fun b => b != 0) ++ [0]

/-- Result of `safeLldMainWrapper`: the returned `SafeReturn` together with
the buffers stored through the `stdoutBuffer` / `stderrBuffer`
out-parameters (`none` models a null pointer). -/
structure WrapperResult : Type where
  res : SafeReturn
  stdoutBuffer : Option (List Nat)
  stderrBuffer : Option (List Nat)
  deriving DecidableEq, Repr

/-- Embedding of `safeLldMainWrapper` (LldWrapper.cpp, lines 65-78): run
`safe_lldMain` over string-backed sinks, then store `strdup` copies of the
accumulated bytes through the out-parameters.  Allocation is modelled as
always succeeding (allocation failure is a memory-model concern outside the
embedding). -/
def safeLldMainWrapper (env : LldEnv) : WrapperResult :=
  { res := safe_lldMain env
    stdoutBuffer := some ( strdup env.driverStdout)
    stderrBuffer := some ( strdup env.driverStderr) }

/-! ## Module-flag-behavior mappings (extensions.cpp, ModuleWrapper.cpp)

Both mapping functions take the wrapper enumeration as a C integer; falling
through every `case` of the `switch` reaches `llvm_unreachable` (the fatal
programming-error path), modelled as `none`. -/

/-- The toolkit's internal `llvm::Module::ModFlagBehavior` enumeration. -/
inductive ModFlagBehavior : Type where
  | Error
  | Warning
  | Require
  | Override
  | Append
  | AppendUnique
  | Max
  | Min
  deriving DecidableEq, Repr

/-- Declared range of the `LLVMModFlagBehavior` enumeration in
`extensions.cpp` (lines 19-32): `Error = 1` through `Min = 8`, with
`ModFlagBehaviorFirstVal = Error` and `ModFlagBehaviorLastVal = Min`, both
unconditional. -/
def declaredLLVMModFlagBehavior (b : Nat) : Prop :=
  1 ≤ b ∧ b ≤ 8

/-- Declared range of the `LLVMRustModFlagBehavior` enumeration in
`ModuleWrapper.cpp` (lines 19-38): `Min = 8` and
`ModFlagBehaviorLastVal = Min` exist only under `LLVM_VERSION_GE(14, 0)`;
otherwise the enumeration ends at `Max = 7`. -/
def declaredLLVMRustModFlagBehavior (llvm14 : Bool) (b : Nat) : Prop :=
  1 ≤ b ∧ b ≤ (if llvm14 then 8 else 7)

instance (b : Nat) : Decidable (declaredLLVMModFlagBehavior b) := by
  unfold declaredLLVMModFlagBehavior
  infer_instance

instance (llvm14 : Bool) (b : Nat) :
    Decidable (declaredLLVMRustModFlagBehavior llvm14 b) := by
  unfold declaredLLVMRustModFlagBehavior
  infer_instance

/-- Embedding of `map_to_llvmModFlagBehavior` (extensions.cpp, lines
34-58).  The `case Min` is commented out in the source (it requires
LLVM 14), so the value 8 falls through to `llvm_unreachable` even though
`Min = 8` is declared in the enumeration. -/
def map_to_llvmModFlagBehavior : Nat → Option ModFlagBehavior
  | 1 => some ModFlagBehavior.Error
  | 2 => some ModFlagBehavior.Warning
  | 3 => some ModFlagBehavior.Require
  | 4 => some ModFlagBehavior.Override
  | 5 => some ModFlagBehavior.Append
  | 6 => some ModFlagBehavior.AppendUnique
  | 7 => some ModFlagBehavior.Max
  | _ => none

/-- Embedding of `map_to_llvmRustModFlagBehavior` (ModuleWrapper.cpp, lines
40-64), parameterized by the `LLVM_VERSION_GE(14, 0)` preprocessor
condition: the `case Min` exists only when it holds. -/
def map_to_llvmRustModFlagBehavior (llvm14 : Bool) : Nat → Option ModFlagBehavior
  | 1 => some ModFlagBehavior.Error
  | 2 => some ModFlagBehavior.Warning
  | 3 => some ModFlagBehavior.Require
  | 4 => some ModFlagBehavior.Override
  | 5 => some ModFlagBehavior.Append
  | 6 => some ModFlagBehavior.AppendUnique
  | 7 => some ModFlagBehavior.Max
  | 8 => if llvm14 then some ModFlagBehavior.Min else none
  | _ => none

/-- Modelled from the spec: the fixed lookup table of §4.3 / §8 (Error to
Error, Warning to Warning, ..., Max to Max, Min to Min), used to compare the
source mappings against the spec's words. -/
def specModFlagTable : Nat → Option ModFlagBehavior
  | 1 => some ModFlagBehavior.Error
  | 2 => some ModFlagBehavior.Warning
  | 3 => some ModFlagBehavior.Require
  | 4 => some ModFlagBehavior.Override
  | 5 => some ModFlagBehavior.Append
  | 6 => some ModFlagBehavior.AppendUnique
  | 7 => some ModFlagBehavior.Max
  | 8 => some ModFlagBehavior.Min
  | _ => none

/-! ## Context creation (ContextWrapper.cpp) -/

/-- Embedding of `LLVMRustContextCreate` (ContextWrapper.cpp, lines 19-24),
generic over any interpretation `Ctx` of the external toolkit's context
objects with `newContext` the result of `new llvm::LLVMContext()`.  The call
`C->setOpaquePointers(OpaquePointers)` is commented out in the source
(reserved for LLVM 15+), so the `OpaquePointers` argument is never read. -/
def LLVMRustContextCreate {Ctx : Type} (newContext : Ctx)
    (OpaquePointers : Bool) : Ctx :=
  newContext

/-! ## Auxiliary predicates and concrete environments -/

/-- Whether a (possibly null) value handle wraps a constant-as-metadata
node: the condition under which `LLVMRustIsAMDConstant` and
`LLVMRustExtractMDConstant` answer positively. -/
def wrapsConstantMetadata (v : Option Value) : Bool :=
  match v.bind getMetadata with
  | some md => isaConstantAsMetadata md
  | none => false

/-- Concrete environment for an invocation whose first crash-recovery scope
fails to complete (the driver's fatal path fired with diagnostic code 3). -/
def fatalEnv : LldEnv :=
  { driverRun := ⟨false, 3⟩
    driverRet := 0
    driverStdout := []
    driverStderr := []
    destroyRun := ⟨true, 0⟩ }

/-- Concrete environment for an invocation in which the driver completes
normally with return value 2 and teardown succeeds. -/
def cleanEnv : LldEnv :=
  { driverRun := ⟨true, 0⟩
    driverRet := 2
    driverStdout := []
    driverStderr := []
    destroyRun := ⟨true, 0⟩ }

/-- Concrete environment whose accumulated stdout text contains an embedded
NUL byte. -/
def nulEnv : LldEnv :=
  { driverRun := ⟨true, 0⟩
    driverRet := 0
    driverStdout := [65, 0, 66]
    driverStderr := []
    destroyRun := ⟨true, 0⟩ }

/-- Concrete environment whose accumulated texts contain no NUL byte. -/
def noNulEnv : LldEnv :=
  { driverRun := ⟨true, 0⟩
    driverRet := 0
    driverStdout := [72]
    driverStderr := []
    destroyRun := ⟨true, 0⟩ }

/-- Elements kept by `takeWhile` with the nonzero test are nonzero. -/
theorem mem_takeWhile_nonzero (s : List Nat) (b : Nat)
    (h : b ∈ s.takeWhile (fun x => x != 0)) : b ≠ 0 := by
  have := List.mem_takeWhile_imp h
  simpa [bne] using this

/-- On a NUL-free byte list, `takeWhile` with the nonzero test is the
identity. -/
theorem takeWhile_nonzero_eq_self (s : List Nat) (h : ¬ 0 ∈ s) :
    s.takeWhile (fun x => x != 0) = s := by
  induction s with
  | nil => rfl
  | cons a l ih =>
    simp only [List.mem_cons, not_or] at h
    have ha : (a != 0) = true := by
      simp only [bne_iff_ne, ne_eq]
      exact fun e => h.1 e.symm
    simp [List.takeWhile_cons, ha, ih h.2]

/-! ## Claims -/

/-- C1, counterexample: a concrete invocation in which the first
crash-recovery scope fails to complete.  The result's return code does come
from the recovery context's diagnostic code and can-run-again is false, but
no second crash-recovery scope attempts teardown of the Driver Global
Context before the return: `safe_lldMain` returns immediately from inside
the first scope's failure branch. -/
theorem safe_lldMain_fatal_no_teardown_cex :
    fatalEnv.driverRun.completed = false ∧
    safe_lldMain fatalEnv = ⟨3, false⟩ ∧
    teardownScopeAttempted fatalEnv = false :=
  ⟨rfl, rfl, rfl⟩

/-- C1, amended: whenever the first crash-recovery scope fails to complete,
`safe_lldMain` returns at once with the recovery context's diagnostic code
as the return code and can-run-again false, and the teardown crash-recovery
scope is not entered on this path (it runs only after the driver scope
completes cleanly). -/
theorem safe_lldMain_fatal_path (env : LldEnv)
    (h : env.driverRun.completed = false) :
    safe_lldMain env = ⟨env.driverRun.retCode, false⟩ ∧
    teardownScopeAttempted env = false := by
  constructor <;>
    simp [safe_lldMain, teardownScopeAttempted, safe_lldMain_instr, h]

/-- C1, witness for the amended theorem at the concrete fatal environment. -/
theorem safe_lldMain_fatal_path_witness :
    safe_lldMain fatalEnv = ⟨fatalEnv.driverRun.retCode, false⟩ ∧
    teardownScopeAttempted fatalEnv = false :=
  safe_lldMain_fatal_path fatalEnv rfl

/-- C5: whenever the driver completes normally (the first crash-recovery
scope returns cleanly), the cleanup crash-recovery scope around
`CommonLinkerContext::destroy()` is entered unconditionally, the result
carries the driver's real return code, and can-run-again is exactly the
success of that teardown scope (true when teardown completes, false when it
fails). -/
theorem safe_lldMain_clean_path (env : LldEnv)
    (h : env.driverRun.completed = true) :
    teardownScopeAttempted env = true ∧
    safe_lldMain env = ⟨env.driverRet, env.destroyRun.completed⟩ := by
  cases hd : env.destroyRun.completed <;>
    simp [safe_lldMain, teardownScopeAttempted, safe_lldMain_instr, h, hd]

/-- C5, witness at the concrete clean environment. -/
theorem safe_lldMain_clean_path_witness :
    teardownScopeAttempted cleanEnv = true ∧
    safe_lldMain cleanEnv = ⟨cleanEnv.driverRet, cleanEnv.destroyRun.completed⟩ :=
  safe_lldMain_clean_path cleanEnv rfl

/-- C4: `LLVMValueAsMetadata` is total over valid value handles and exactly
one of its three branches applies to every input, dispatched by dynamic kind
most-specific-first: a constant yields a fresh constant-as-metadata wrapper,
a metadata-as-value handle yields the metadata node it already wraps, and
any other value yields a generic value-as-metadata wrapper.  The three
disjuncts are pairwise incompatible via the dynamic-kind flags, so exactly
one holds; totality is the statement's coverage of every `v`. -/
theorem LLVMValueAsMetadata_total_dispatch (v : Value) :
    (isaConstant v = true ∧ isaMetadataAsValue v = false ∧
      LLVMValueAsMetadata v = constantAsMetadataGet v) ∨
    (isaConstant v = false ∧ isaMetadataAsValue v = true ∧
      getMetadata v = some (LLVMValueAsMetadata v)) ∨
    (isaConstant v = false ∧ isaMetadataAsValue v = false ∧
      LLVMValueAsMetadata v = valueAsMetadataGet v) := by
  cases v <;>
    simp [isaConstant, isaMetadataAsValue, getMetadata, LLVMValueAsMetadata,
      constantAsMetadataGet, valueAsMetadataGet]

/-- C7: coercing a value handle that is already a metadata-as-value wrapper
returns exactly the metadata node the wrapper already carried (the second
branch of `LLVMValueAsMetadata` projects the stored node; no new wrapper
node is built on this path). -/
theorem LLVMValueAsMetadata_idempotent_on_wrapper (md : Metadata) :
    LLVMValueAsMetadata (metadataAsValueGet md) = md :=
  rfl

/-- C3: for every constant value handle, coercing it to metadata with
`LLVMValueAsMetadata`, wrapping the resulting node back into a
metadata-as-value handle, and applying `LLVMRustExtractMDConstant` returns
the original constant handle. -/
theorem extract_after_coerce_constant (c : Value)
    (h : isaConstant c = true) :
    LLVMRustExtractMDConstant
      (some (metadataAsValueGet (LLVMValueAsMetadata c))) = some c := by
  cases c with
  | constant i => rfl
  | metadataAsValue md => simp [isaConstant] at h
  | other i => simp [isaConstant] at h

/-- C3, witness at the concrete constant handle with tag 0. -/
theorem extract_after_coerce_constant_witness :
    LLVMRustExtractMDConstant
      (some (metadataAsValueGet (LLVMValueAsMetadata (Value.constant 0)))) =
      some (Value.constant 0) :=
  extract_after_coerce_constant (Value.constant 0) rfl

/-- C6: on every value handle that does not wrap constant metadata (either
it is null, or it is not a metadata-as-value handle, or the wrapped metadata
is not a constant-as-metadata node), `LLVMRustExtractMDConstant` returns the
null handle: a defined negative answer rather than a failure. -/
theorem extract_negative_answer (v : Option Value)
    (h : wrapsConstantMetadata v = false) :
    LLVMRustExtractMDConstant v = none := by
  cases hm : Option.bind v getMetadata with
  | none => simp [LLVMRustExtractMDConstant, hm]
  | some md =>
    have h2 : isaConstantAsMetadata md = false := by
      simpa [wrapsConstantMetadata, hm] using h
    simp [LLVMRustExtractMDConstant, hm, h2]

/-- C6, witness at a concrete non-metadata-wrapping value handle. -/
theorem extract_negative_answer_witness :
    LLVMRustExtractMDConstant (some (Value.other 0)) = none :=
  extract_negative_answer (some (Value.other 0)) rfl

/-- C10: `LLVMRustIsAMDConstant` answers non-null exactly when
`LLVMRustExtractMDConstant` answers non-null, and when non-null its result
is the input handle itself (the single equation below packages both: the
classifier equals the input when the extractor succeeds and the null handle
otherwise). -/
theorem isAMDConstant_extract_agreement (v : Option Value) :
    LLVMRustIsAMDConstant v =
      if (LLVMRustExtractMDConstant v).isSome = true then v else none := by
  cases v with
  | none => rfl
  | some w =>
    cases w with
    | constant i => rfl
    | metadataAsValue md => cases md <;> rfl
    | other i => rfl

/-- C2, counterexample: in the `extensions.cpp` copy, `Min = 8` lies inside
the declared enumeration range (`ModFlagBehaviorLastVal = Min`), yet
`map_to_llvmModFlagBehavior` has no case for it (the case is commented out
in the source), so the declared value 8 reaches the fatal
`llvm_unreachable` path and is not mapped to `Min`. -/
theorem modflag_min_cex :
    declaredLLVMModFlagBehavior 8 ∧ map_to_llvmModFlagBehavior 8 = none :=
  ⟨by decide, rfl⟩

/-- C2, amended: the `ModuleWrapper.cpp` copy satisfies the claim in full
for both version configurations: every declared value maps per the fixed
lookup table and only integers outside the declared range reach the fatal
path.  The `extensions.cpp` copy satisfies it only for `Error = 1` through
`Max = 7`: every integer outside that sub-range, including the declared
value `Min = 8`, reaches the fatal path. -/
theorem modflag_mapping_amended (llvm14 : Bool) (b : Nat) :
    (declaredLLVMRustModFlagBehavior llvm14 b →
      map_to_llvmRustModFlagBehavior llvm14 b = specModFlagTable b ∧
      (map_to_llvmRustModFlagBehavior llvm14 b).isSome = true) ∧
    (¬ declaredLLVMRustModFlagBehavior llvm14 b →
      map_to_llvmRustModFlagBehavior llvm14 b = none) ∧
    (1 ≤ b ∧ b ≤ 7 →
      map_to_llvmModFlagBehavior b = specModFlagTable b ∧
      (map_to_llvmModFlagBehavior b).isSome = true) ∧
    map_to_llvmModFlagBehavior 8 = none ∧
    (¬ declaredLLVMModFlagBehavior b → map_to_llvmModFlagBehavior b = none) := by
  rcases b with _ | _ | _ | _ | _ | _ | _ | _ | _ | n
  · cases llvm14 <;> decide
  · cases llvm14 <;> decide
  · cases llvm14 <;> decide
  · cases llvm14 <;> decide
  · cases llvm14 <;> decide
  · cases llvm14 <;> decide
  · cases llvm14 <;> decide
  · cases llvm14 <;> decide
  · cases llvm14 <;> decide
  · refine ⟨?_, fun _ => rfl, ?_, rfl, fun _ => rfl⟩
    · intro h
      rcases h with ⟨h1, h2⟩
      cases llvm14 <;> simp at h2
    · intro h
      rcases h with ⟨h1, h2⟩
      omega

/-- C2, witness for the amended theorem: under LLVM 14 the
`ModuleWrapper.cpp` mapping sends the declared value `Min = 8` to the
table's entry. -/
theorem modflag_mapping_amended_witness :
    map_to_llvmRustModFlagBehavior true 8 = specModFlagTable 8 ∧
    (map_to_llvmRustModFlagBehavior true 8).isSome = true :=
  (modflag_mapping_amended true 8).1 (by decide)

/-- C8, counterexample: a concrete invocation whose accumulated stdout text
contains an embedded NUL byte.  The stored stdout buffer is the text
truncated at that byte, not a null-terminated copy of the accumulated
text. -/
theorem wrapper_buffer_truncation_cex :
    (safeLldMainWrapper nulEnv).stdoutBuffer = some [65, 0] ∧
    (safeLldMainWrapper nulEnv).stdoutBuffer ≠
      some (nulEnv.driverStdout ++ [0]) := by
  decide

/-- C8, amended: for every invocation, regardless of outcome, both output
parameters are set to non-null buffers consisting of a NUL-free prefix of
the accumulated text followed by a terminating NUL; whenever the
accumulated text contains no NUL byte the buffer is exactly the
null-terminated copy of that text (`strdup` of `c_str()` truncates at the
first embedded NUL otherwise). -/
theorem safeLldMainWrapper_buffers (env : LldEnv) :
    (∃ t u, (safeLldMainWrapper env).stdoutBuffer = some (t ++ [0]) ∧
      ¬ 0 ∈ t ∧ t ++ u = env.driverStdout) ∧
    (∃ t u, (safeLldMainWrapper env).stderrBuffer = some (t ++ [0]) ∧
      ¬ 0 ∈ t ∧ t ++ u = env.driverStderr) ∧
    (¬ 0 ∈ env.driverStdout →
      (safeLldMainWrapper env).stdoutBuffer = some (env.driverStdout ++ [0])) ∧
    (¬ 0 ∈ env.driverStderr →
      (safeLldMainWrapper env).stderrBuffer = some (env.driverStderr ++ [0])) := by
  refine ⟨⟨env.driverStdout.takeWhile (fun x => x != 0),
      env.driverStdout.dropWhile (fun x => x != 0), rfl, ?_, ?_⟩,
    ⟨env.driverStderr.takeWhile (fun x => x != 0),
      env.driverStderr.dropWhile (fun x => x != 0), rfl, ?_, ?_⟩, ?_, ?_⟩
  · exact fun hmem => mem_takeWhile_nonzero env.driverStdout 0 hmem rfl
  · exact List.takeWhile_append_dropWhile _ _
  · exact fun hmem => mem_takeWhile_nonzero env.driverStderr 0 hmem rfl
  · exact List.takeWhile_append_dropWhile _ _
  · intro h
    simp [safeLldMainWrapper, strdup, takeWhile_nonzero_eq_self _ h]
  · intro h
    simp [safeLldMainWrapper, strdup, takeWhile_nonzero_eq_self _ h]

/-- C8, witness for the amended theorem at a NUL-free environment. -/
theorem safeLldMainWrapper_buffers_witness :
    (safeLldMainWrapper noNulEnv).stdoutBuffer =
      some (noNulEnv.driverStdout ++ [0]) ∧
    (safeLldMainWrapper noNulEnv).stderrBuffer =
      some (noNulEnv.driverStderr ++ [0]) :=
  ⟨(safeLldMainWrapper_buffers noNulEnv).2.2.1 (by decide),
   (safeLldMainWrapper_buffers noNulEnv).2.2.2 (by decide)⟩

/-- C9: `LLVMRustContextCreate` treats its opaque-pointers flag as a no-op:
for any interpretation of the external context type and of context
construction, two calls differing only in the flag produce identical
results (the `setOpaquePointers` call is commented out in the source). -/
theorem LLVMRustContextCreate_opaque_noop (Ctx : Type) (newContext : Ctx)
    (b1 b2 : Bool) :
    LLVMRustContextCreate newContext b1 = LLVMRustContextCreate newContext b2 :=
  rfl

end PyQirWrapper
